import Mathlib

/-!
Shallow embedding of the sentinel/fallback utilities of `vt.utils.commons`
(files `core_py/base.py`, `core_py/utils.py`, `collections/utils.py`,
`op/base.py`), together with theorems settling the specification claims.

Python runtime values are embedded as the inductive type `PyVal`; runtime
types (`type(x)`) as `PyType`; raised exceptions as `PyExc` carried in
`Except`.  Identity (`is`) on sentinel singletons coincides with equality
of `PyVal`, because each sentinel is a dedicated constructor.
-/

namespace VtCommons

/-- Embedded Python exceptions raised by the utilities under study. -/
inductive PyExc where
  | typeError (msg : String)
  | valueError (msg : String)
  | assertionError (msg : String)
  deriving DecidableEq, Repr

/-- Runtime type tags, the embedding of `type(x)` for the values of `PyVal`. -/
inductive PyType where
  | missingType
  | ellipsisType
  | noneType
  | boolType
  | intType
  | strType
  | listType
  | tupleType
  | dictType
  | setType
  deriving DecidableEq, Repr

/-- Printable name of a runtime type, used in error messages. -/
def PyType.name : PyType → String
  | .missingType => "MISSING_TYPE"
  | .ellipsisType => "ellipsis"
  | .noneType => "NoneType"
  | .boolType => "bool"
  | .intType => "int"
  | .strType => "str"
  | .listType => "list"
  | .tupleType => "tuple"
  | .dictType => "dict"
  | .setType => "set"

/-- Embedded Python values.

Modelled from the spec: the class `_MISSING` (defined in
`core_py/_base.py`, which is not among the provided sources) is, per the
spec, "a unique, process-wide singleton object compared only by identity",
with "no public constructor beyond one private/internal instance per
process" and identity-only equality.  It is therefore embedded as the
single constructor `missingSent`, the only inhabitant of runtime type
`missingType`.  All other constructors embed ordinary Python values from
the doctests and the claims (None, bool, int, str, list, tuple, dict,
set) plus the `...` (ellipsis) singleton. -/
inductive PyVal where
  | missingSent : PyVal
  | ellipsisVal : PyVal
  | noneVal : PyVal
  | boolVal : Bool → PyVal
  | intVal : Int → PyVal
  | strVal : String → PyVal
  | listVal : List PyVal → PyVal
  | tupleVal : List PyVal → PyVal
  | dictVal : List (PyVal × PyVal) → PyVal
  | setVal : List PyVal → PyVal

/-- Embedding of `type(x)`: the runtime type tag of a value. -/
def PyVal.ptype : PyVal → PyType
  | .missingSent => .missingType
  | .ellipsisVal => .ellipsisType
  | .noneVal => .noneType
  | .boolVal _ => .boolType
  | .intVal _ => .intType
  | .strVal _ => .strType
  | .listVal _ => .listType
  | .tupleVal _ => .tupleType
  | .dictVal _ => .dictType
  | .setVal _ => .setType

/-- Python truthiness (`bool(x)`) for the embedded values.  Objects that
define neither `__bool__` nor `__len__` (the sentinels) are truthy. -/
def PyVal.truthy : PyVal → Bool
  | .missingSent => true
  | .ellipsisVal => true
  | .noneVal => false
  | .boolVal b => b
  | .intVal n => decide (n ≠ 0)
  | .strVal s => !s.isEmpty
  | .listVal l => !l.isEmpty
  | .tupleVal l => !l.isEmpty
  | .dictVal l => !l.isEmpty
  | .setVal l => !l.isEmpty

/-- `core_py/base.py` line 21: `MISSING: Final[MISSING_TYPE] = MISSING_TYPE()` —
the process-wide missing-value sentinel. -/
def MISSING : PyVal := .missingSent

/-- `core_py/base.py` line 28: `UNSET: Final[UNSET_TYPE] = MISSING` — the
unset sentinel, aliased to the very same singleton object as `MISSING`. -/
def UNSET : PyVal := MISSING

/-- `core_py/utils.py` `is_missing`: `return obj is MISSING`.  Identity to
the `MISSING` singleton; under the singleton embedding identity to
`MISSING` is being the constructor `missingSent`. -/
def is_missing (obj : PyVal) : Bool :=
  match obj with
  | .missingSent => true
  | _ => false

/-- `core_py/utils.py` `is_unset`: `return obj is UNSET`.  `UNSET` is the
`missingSent` singleton (`UNSET = MISSING` in `base.py`), so identity to
`UNSET` is being that constructor. -/
def is_unset (obj : PyVal) : Bool :=
  match obj with
  | .missingSent => true
  | _ => false

/-- `core_py/utils.py` `is_ellipses`: `return obj is ...` — identity to
the ellipsis singleton. -/
def is_ellipses (obj : PyVal) : Bool :=
  match obj with
  | .ellipsisVal => true
  | _ => false

/-- The `TypeError` raised by `_alt_if_predicate_true` on a runtime-type
mismatch between `obj` and `alt`. -/
def typeMismatchError (tObj tAlt : PyType) : PyExc :=
  .typeError ("Unexpected type: obj and alt must be of the same type. type(obj): "
    ++ tObj.name ++ ", type(alt): " ++ tAlt.name)

/-- `core_py/utils.py` `_alt_if_predicate_true`:

```
if predicate(obj):
    return alt
if type(obj) != type(alt):
    raise TypeError(...)
return alt if is_missing(obj) else cast(T, obj)
``` -/
def _alt_if_predicate_true (obj alt : PyVal) (predicate : PyVal → Bool) :
    Except PyExc PyVal :=
  if predicate obj then .ok alt
  else if obj.ptype ≠ alt.ptype then .error (typeMismatchError obj.ptype alt.ptype)
  else if is_missing obj then .ok alt
  else .ok obj

/-- `core_py/utils.py` `alt_if_missing`:
`return _alt_if_predicate_true(obj, alt, is_missing)`. -/
def alt_if_missing (obj alt : PyVal) : Except PyExc PyVal :=
  _alt_if_predicate_true obj alt is_missing

/-- `core_py/utils.py` `alt_if_unset`:
`return _alt_if_predicate_true(obj, alt, is_unset)`. -/
def alt_if_unset (obj alt : PyVal) : Except PyExc PyVal :=
  _alt_if_predicate_true obj alt is_unset

/-- `core_py/utils.py` `alt_if_ellipses`:
`return _alt_if_predicate_true(obj, alt, is_ellipses)`. -/
def alt_if_ellipses (obj alt : PyVal) : Except PyExc PyVal :=
  _alt_if_predicate_true obj alt is_ellipses

/-- `core_py/utils.py` `fallback_on_none`:
`return default_val if value is None else value`. -/
def fallback_on_none (value default_val : PyVal) : PyVal :=
  match value with
  | .noneVal => default_val
  | _ => value

/-- `core_py/utils.py` `fallback_on_none_strict`:

```
assert default_val is not None, "default_val must not be None."
return cast(T, fallback_on_none(value, default_val))
```

A failed `assert` raises `AssertionError` with the given message. -/
def fallback_on_none_strict (value default_val : PyVal) : Except PyExc PyVal :=
  match default_val with
  | .noneVal => .error (.assertionError "default_val must not be None.")
  | _ => .ok (fallback_on_none value default_val)

/-! ## `collections/utils.py` -/

/-- The object a caller supplies as the `predicate` argument of
`get_first_true` / `get_last_true`: either a callable — whose invocation
on one element may itself raise an exception (e.g. an arity mismatch),
embedded as a function into `Except` — or a non-callable object, of which
only the type name (used in the error message) is relevant. -/
inductive PyPredicateArg (T : Type) where
  | callableFn (f : T → Except PyExc Bool)
  | nonCallable (typeName : String)

/-- Embedding of Python's `callable(predicate)` check. -/
def PyPredicateArg.isCallable {T : Type} : PyPredicateArg T → Bool
  | .callableFn _ => true
  | .nonCallable _ => false

/-- The `for`-loop body of `get_first_true`:
`for _id in iter_provider(ids): if predicate(_id): return _id` followed by
`return default_val`; an exception raised by `predicate(_id)` propagates. -/
def firstTrueLoop {T : Type} (f : T → Except PyExc Bool) (default_val : T) :
    List T → Except PyExc T
  | [] => .ok default_val
  | x :: xs =>
    match f x with
    | .error e => .error e
    | .ok true => .ok x
    | .ok false => firstTrueLoop f default_val xs

/-- Embedding of the built-in `iter`, the default `iter_provider` of
`get_first_true`: forward-order traversal. -/
def pyIter {T : Type} (ids : List T) : List T := ids

/-- Embedding of the built-in `reversed`: reverse-order traversal. -/
def pyReversed {T : Type} (ids : List T) : List T := ids.reverse

/-- `collections/utils.py` `get_first_true`:

```
if not callable(predicate):
    raise TypeError(f"predicate must be a (x) -> bool Callable. Supplied {type(predicate)}.")
for _id in iter_provider(ids):
    if predicate(_id):
        return _id
return default_val
```

The source gives `iter_provider` the default value `iter` (= `pyIter`
here); the default is passed explicitly in this embedding. -/
def get_first_true {T : Type} (ids : List T) (default_val : T)
    (predicate : PyPredicateArg T) (iter_provider : List T → List T) :
    Except PyExc T :=
  match predicate with
  | .nonCallable tn =>
    .error (.typeError ("predicate must be a (x) -> bool Callable. Supplied " ++ tn ++ "."))
  | .callableFn f => firstTrueLoop f default_val (iter_provider ids)

/-- `collections/utils.py` `get_last_true`:
`return get_first_true(ids, default_val, predicate, reversed)`. -/
def get_last_true {T : Type} (ids : List T) (default_val : T)
    (predicate : PyPredicateArg T) : Except PyExc T :=
  get_first_true ids default_val predicate pyReversed

/-- A pure (never-raising) predicate supplied as a callable argument. -/
def purePred {T : Type} (P : T → Bool) : PyPredicateArg T :=
  .callableFn (fun x => .ok (P x))

/-! ## `op/base.py` -/

/-- A `pathlib.Path` value, embedded by the string it denotes. -/
structure PyPath where
  pathStr : String
  deriving DecidableEq, Repr

/-- An object with a `root_dir` path capability (`RootDirOp` protocol,
as instantiated by `CWDRootDirOp`). -/
structure RootDirOpObj where
  root_dir : PyPath
  deriving DecidableEq, Repr

/-- Truthiness of an optional Python argument: `None` is falsy; `Path`
and `RootDirOp` objects define neither `__bool__` nor `__len__`, so any
such object is truthy. -/
def optTruthy {A : Type} : Option A → Bool
  | none => false
  | some _ => true

/-- `op/base.py` `RootDirOps.strictly_one_required`:

```
if root_dir is None and root_dir_op is None:
    raise ValueError(f"Either {root_dir_str} or {root_dir_op_str} is required.")
if root_dir and root_dir_op:
    raise ValueError(f"{root_dir_str} and {root_dir_op_str} are not allowed together.")
```

The source gives `root_dir`, `root_dir_op` the default `None` and the
name strings the defaults `"root_dir"`, `"root_dir_op"`; defaults are
passed explicitly in this embedding.  Note the second guard tests
truthiness (`if root_dir and root_dir_op`), not `is not None`. -/
def strictly_one_required (root_dir : Option PyPath) (root_dir_op : Option RootDirOpObj)
    (root_dir_str root_dir_op_str : String) : Except PyExc Unit :=
  if root_dir.isNone && root_dir_op.isNone then
    .error (.valueError ("Either " ++ root_dir_str ++ " or " ++ root_dir_op_str ++ " is required."))
  else if optTruthy root_dir && optTruthy root_dir_op then
    .error (.valueError (root_dir_str ++ " and " ++ root_dir_op_str ++ " are not allowed together."))
  else .ok ()

/-- The spec's "shared algorithm" for checked fallback resolution, stated
in the spec's own words: return `alt` when the classification predicate
holds for `obj`; otherwise raise a type-mismatch error when the runtime
types of `obj` and `alt` differ, and return `obj` itself when they are
exactly equal. -/
def followsSharedAlgorithm (F : PyVal → PyVal → Except PyExc PyVal)
    (pred : PyVal → Bool) : Prop :=
  ∀ obj alt,
    (pred obj = true → F obj alt = .ok alt)
    ∧ (pred obj = false → obj.ptype ≠ alt.ptype →
        F obj alt = .error (typeMismatchError obj.ptype alt.ptype))
    ∧ (pred obj = false → obj.ptype = alt.ptype → F obj alt = .ok obj)

/-! ## Helper lemmas -/

/-- The `missingType` runtime type has exactly one inhabitant, the
`MISSING` singleton. -/
theorem ptype_eq_missingType_iff (v : PyVal) :
    v.ptype = PyType.missingType ↔ v = MISSING := by
  cases v <;> simp [PyVal.ptype, MISSING]

theorem is_missing_eq_true_iff (v : PyVal) : is_missing v = true ↔ v = MISSING := by
  cases v <;> simp [is_missing, MISSING]

theorem is_unset_eq_is_missing (v : PyVal) : is_unset v = is_missing v := by
  cases v <;> rfl

theorem is_ellipses_eq_true_iff (v : PyVal) :
    is_ellipses v = true ↔ v = PyVal.ellipsisVal := by
  cases v <;> simp [is_ellipses]

theorem alt_if_predicate_true_pred_true (obj alt : PyVal) (p : PyVal → Bool)
    (h : p obj = true) : _alt_if_predicate_true obj alt p = .ok alt := by
  simp [_alt_if_predicate_true, h]

theorem alt_if_predicate_true_type_mismatch (obj alt : PyVal) (p : PyVal → Bool)
    (h : p obj = false) (hty : obj.ptype ≠ alt.ptype) :
    _alt_if_predicate_true obj alt p = .error (typeMismatchError obj.ptype alt.ptype) := by
  simp [_alt_if_predicate_true, h, hty]

theorem alt_if_predicate_true_keep (obj alt : PyVal) (p : PyVal → Bool)
    (h : p obj = false) (hty : obj.ptype = alt.ptype) (hm : obj ≠ MISSING) :
    _alt_if_predicate_true obj alt p = .ok obj := by
  have hm' : is_missing obj = false := by
    cases hmiss : is_missing obj
    · rfl
    · exact absurd ((is_missing_eq_true_iff obj).mp hmiss) hm
  simp [_alt_if_predicate_true, h, hty, hm']

theorem alt_if_predicate_true_missing_same_type (obj alt : PyVal) (p : PyVal → Bool)
    (h : p obj = false) (hty : obj.ptype = alt.ptype) (hm : obj = MISSING) :
    _alt_if_predicate_true obj alt p = .ok alt := by
  subst hm
  have h1 : is_missing MISSING = true := rfl
  simp [_alt_if_predicate_true, h, hty, h1]

/-! ## Claim theorems -/

/-- Claim C1: `UNSET` is the same singleton object as `MISSING`, so
`is_unset` and `is_missing` are extensionally equal — `is_unset(MISSING)`
and `is_missing(UNSET)` are true and `is_unset(x) = is_missing(x)` for
every `x` — and consequently `alt_if_unset(obj, alt)` equals
`alt_if_missing(obj, alt)` for all `obj` and `alt`. -/
theorem unset_is_missing_aliasing :
    UNSET = MISSING
    ∧ is_unset MISSING = true
    ∧ is_missing UNSET = true
    ∧ (∀ x, is_unset x = is_missing x)
    ∧ (∀ obj alt, alt_if_unset obj alt = alt_if_missing obj alt) := by
  refine ⟨rfl, rfl, rfl, is_unset_eq_is_missing, fun obj alt => ?_⟩
  show _alt_if_predicate_true obj alt is_unset = _alt_if_predicate_true obj alt is_missing
  rw [funext is_unset_eq_is_missing]

/-- Claim C2: each checked fallback-resolution function (`alt_if_missing`,
`alt_if_unset`, `alt_if_ellipses`) follows the spec's shared algorithm:
it returns `alt` when its classification predicate holds for `obj`;
otherwise it raises a `TypeError` when the runtime types of `obj` and
`alt` differ, and returns `obj` itself when they are exactly equal. -/
theorem checked_fallbacks_follow_shared_algorithm :
    followsSharedAlgorithm alt_if_missing is_missing
    ∧ followsSharedAlgorithm alt_if_unset is_unset
    ∧ followsSharedAlgorithm alt_if_ellipses is_ellipses := by
  refine ⟨fun obj alt => ?_, fun obj alt => ?_, fun obj alt => ?_⟩
  · refine ⟨alt_if_predicate_true_pred_true obj alt is_missing,
      alt_if_predicate_true_type_mismatch obj alt is_missing, fun h hty => ?_⟩
    have hm : obj ≠ MISSING := fun he => by
      rw [(is_missing_eq_true_iff obj).mpr he] at h
      simp at h
    exact alt_if_predicate_true_keep obj alt is_missing h hty hm
  · refine ⟨alt_if_predicate_true_pred_true obj alt is_unset,
      alt_if_predicate_true_type_mismatch obj alt is_unset, fun h hty => ?_⟩
    have hm : obj ≠ MISSING := fun he => by
      rw [is_unset_eq_is_missing, (is_missing_eq_true_iff obj).mpr he] at h
      simp at h
    exact alt_if_predicate_true_keep obj alt is_unset h hty hm
  · refine ⟨alt_if_predicate_true_pred_true obj alt is_ellipses,
      alt_if_predicate_true_type_mismatch obj alt is_ellipses, fun h hty => ?_⟩
    by_cases hm : obj = MISSING
    · have halt : alt = MISSING := by
        rw [← ptype_eq_missingType_iff, ← hty, hm]
        rfl
      rw [show alt_if_ellipses obj alt = _alt_if_predicate_true obj alt is_ellipses from rfl,
        alt_if_predicate_true_missing_same_type obj alt is_ellipses h hty hm, halt, hm]
    · exact alt_if_predicate_true_keep obj alt is_ellipses h hty hm

/-- Witness for C2: `alt_if_missing(MISSING, 2) = 2`; a `bool` obj with an
`int` alt raises the type-mismatch error; equal types keep `obj`. -/
theorem checked_fallbacks_follow_shared_algorithm_witness :
    alt_if_missing MISSING (PyVal.intVal 2) = .ok (PyVal.intVal 2)
    ∧ alt_if_missing (PyVal.boolVal true) (PyVal.intVal 1)
        = .error (typeMismatchError PyType.boolType PyType.intType)
    ∧ alt_if_ellipses (PyVal.intVal 0) (PyVal.intVal 2) = .ok (PyVal.intVal 0) := by
  refine ⟨?_, ?_, ?_⟩
  · exact (checked_fallbacks_follow_shared_algorithm.1 MISSING (PyVal.intVal 2)).1 rfl
  · exact (checked_fallbacks_follow_shared_algorithm.1 (PyVal.boolVal true)
      (PyVal.intVal 1)).2.1 rfl (by simp [PyVal.ptype])
  · exact (checked_fallbacks_follow_shared_algorithm.2.2 (PyVal.intVal 0)
      (PyVal.intVal 2)).2.2 rfl rfl

/-- Claim C3: `alt_if_missing(MISSING, alt)` returns `alt` for every
`alt`; for `v` not the `MISSING` singleton, `alt_if_missing(v, alt)`
returns `v` when the runtime types of `v` and `alt` agree and raises a
`TypeError` when they differ. -/
theorem alt_if_missing_spec (v alt : PyVal) :
    alt_if_missing MISSING alt = .ok alt
    ∧ (v ≠ MISSING → v.ptype = alt.ptype → alt_if_missing v alt = .ok v)
    ∧ (v ≠ MISSING → v.ptype ≠ alt.ptype →
        alt_if_missing v alt = .error (typeMismatchError v.ptype alt.ptype)) := by
  refine ⟨alt_if_predicate_true_pred_true MISSING alt is_missing rfl, fun hv hty => ?_,
    fun hv hty => ?_⟩
  · exact alt_if_predicate_true_keep v alt is_missing
      (by cases hmiss : is_missing v
          · rfl
          · exact absurd ((is_missing_eq_true_iff v).mp hmiss) hv) hty hv
  · exact alt_if_predicate_true_type_mismatch v alt is_missing
      (by cases hmiss : is_missing v
          · rfl
          · exact absurd ((is_missing_eq_true_iff v).mp hmiss) hv) hty

/-- Witness for C3 at concrete inputs: `alt_if_missing(MISSING, 2) = 2`,
`alt_if_missing(0, 2) = 0`, and `alt_if_missing("a", 2)` raises. -/
theorem alt_if_missing_spec_witness :
    alt_if_missing MISSING (PyVal.intVal 2) = .ok (PyVal.intVal 2)
    ∧ alt_if_missing (PyVal.intVal 0) (PyVal.intVal 2) = .ok (PyVal.intVal 0)
    ∧ alt_if_missing (PyVal.strVal "a") (PyVal.intVal 2)
        = .error (typeMismatchError PyType.strType PyType.intType) := by
  refine ⟨(alt_if_missing_spec MISSING (PyVal.intVal 2)).1, ?_, ?_⟩
  · exact (alt_if_missing_spec (PyVal.intVal 0) (PyVal.intVal 2)).2.1
      (by simp [MISSING]) rfl
  · exact (alt_if_missing_spec (PyVal.strVal "a") (PyVal.intVal 2)).2.2
      (by simp [MISSING]) (by simp [PyVal.ptype])

theorem firstTrueLoop_all_false {T : Type} (P : T → Bool) (d : T) (l : List T)
    (h : ∀ x ∈ l, P x = false) :
    firstTrueLoop (fun x => .ok (P x)) d l = .ok d := by
  induction l with
  | nil => rfl
  | cons a as ih =>
    have ha : P a = false := h a (List.mem_cons_self a as)
    simp only [firstTrueLoop, ha]
    exact ih (fun y hy => h y (List.mem_cons_of_mem a hy))

theorem firstTrueLoop_first {T : Type} (P : T → Bool) (d : T) (pre : List T)
    (y : T) (post : List T) (hy : P y = true) (hpre : ∀ x ∈ pre, P x = false) :
    firstTrueLoop (fun x => .ok (P x)) d (pre ++ y :: post) = .ok y := by
  induction pre with
  | nil => simp only [List.nil_append, firstTrueLoop, hy]
  | cons a as ih =>
    have ha : P a = false := hpre a (List.mem_cons_self a as)
    simp only [List.cons_append, firstTrueLoop, ha]
    exact ih (fun x hx => hpre x (List.mem_cons_of_mem a hx))

theorem firstTrueLoop_error {T : Type} (f : T → Except PyExc Bool) (d : T)
    (pre : List T) (x : T) (post : List T) (e : PyExc)
    (hpre : ∀ y ∈ pre, f y = .ok false) (hx : f x = .error e) :
    firstTrueLoop f d (pre ++ x :: post) = .error e := by
  induction pre with
  | nil => simp only [List.nil_append, firstTrueLoop, hx]
  | cons a as ih =>
    have ha : f a = .ok false := hpre a (List.mem_cons_self a as)
    simp only [List.cons_append, firstTrueLoop, ha]
    exact ih (fun y hy => hpre y (List.mem_cons_of_mem a hy))

theorem exists_first_true_decomposition {T : Type} (P : T → Bool) (l : List T)
    (h : ∃ x ∈ l, P x = true) :
    ∃ y pre post, l = pre ++ y :: post ∧ P y = true ∧ ∀ x ∈ pre, P x = false := by
  induction l with
  | nil => simp at h
  | cons a as ih =>
    cases ha : P a with
    | true => exact ⟨a, [], as, rfl, ha, by simp⟩
    | false =>
      have h' : ∃ x ∈ as, P x = true := by
        obtain ⟨x, hx, hPx⟩ := h
        rcases List.mem_cons.mp hx with h1 | h2
        · subst h1
          rw [ha] at hPx
          simp at hPx
        · exact ⟨x, h2, hPx⟩
      obtain ⟨y, pre, post, heq, hPy, hpre⟩ := ih h'
      refine ⟨y, a :: pre, post, by rw [heq, List.cons_append], hPy, ?_⟩
      intro x hx
      rcases List.mem_cons.mp hx with h1 | h2
      · subst h1
        exact ha
      · exact hpre x h2

/-- Claim C4: with a predicate true for at least one element,
`get_first_true` returns the first element (forward order) satisfying it
and `get_last_true` the last — stated through the unique decomposition
`S = pre ++ y :: post` with all of `pre` (resp. `post`) failing the
predicate, whose existence the theorem also provides; with a predicate
false for every element (so in particular on the empty sequence), both
return the supplied default. -/
theorem get_first_last_true_spec {T : Type} (S : List T) (d : T) (P : T → Bool) :
    (∀ y pre post, S = pre ++ y :: post → P y = true → (∀ x ∈ pre, P x = false) →
      get_first_true S d (purePred P) pyIter = .ok y)
    ∧ (∀ y pre post, S = pre ++ y :: post → P y = true → (∀ x ∈ post, P x = false) →
      get_last_true S d (purePred P) = .ok y)
    ∧ ((∃ x ∈ S, P x = true) →
      (∃ y pre post, S = pre ++ y :: post ∧ P y = true ∧ ∀ x ∈ pre, P x = false)
      ∧ (∃ y pre post, S = pre ++ y :: post ∧ P y = true ∧ ∀ x ∈ post, P x = false))
    ∧ ((∀ x ∈ S, P x = false) →
      get_first_true S d (purePred P) pyIter = .ok d
      ∧ get_last_true S d (purePred P) = .ok d) := by
  refine ⟨fun y pre post heq hy hpre => ?_, fun y pre post heq hy hpost => ?_,
    fun hex => ⟨exists_first_true_decomposition P S hex, ?_⟩, fun hall => ⟨?_, ?_⟩⟩
  · subst heq
    exact firstTrueLoop_first P d pre y post hy hpre
  · subst heq
    show firstTrueLoop (fun x => .ok (P x)) d ((pre ++ y :: post).reverse) = .ok y
    rw [List.reverse_append, List.reverse_cons, List.append_assoc, List.singleton_append]
    exact firstTrueLoop_first P d post.reverse y pre.reverse hy
      (fun x hx => hpost x (List.mem_reverse.mp hx))
  · have hex' : ∃ x ∈ S.reverse, P x = true := by
      obtain ⟨x, hx, hPx⟩ := hex
      exact ⟨x, List.mem_reverse.mpr hx, hPx⟩
    obtain ⟨y, pre, post, heq, hPy, hpre⟩ := exists_first_true_decomposition P S.reverse hex'
    refine ⟨y, post.reverse, pre.reverse, ?_, hPy, fun x hx => hpre x (List.mem_reverse.mp hx)⟩
    have := congrArg List.reverse heq
    rw [List.reverse_reverse, List.reverse_append, List.reverse_cons, List.append_assoc,
      List.singleton_append] at this
    exact this
  · exact firstTrueLoop_all_false P d S hall
  · exact firstTrueLoop_all_false P d S.reverse
      (fun x hx => hall x (List.mem_reverse.mp hx))

/-- Witness for C4: `get_first_true([1,2,3], -1, x > 1) = 2`,
`get_last_true([1,2,3], -1, x > 1) = 3`, and with an all-false predicate
both return the default `-1`. -/
theorem get_first_last_true_spec_witness :
    get_first_true [1, 2, 3] (-1 : Int) (purePred (fun x => decide (1 < x))) pyIter
      = .ok 2
    ∧ get_last_true [1, 2, 3] (-1 : Int) (purePred (fun x => decide (1 < x)))
      = .ok 3
    ∧ get_first_true [1, 2, 3] (-1 : Int) (purePred (fun x => decide (5 < x))) pyIter
      = .ok (-1)
    ∧ get_last_true [1, 2, 3] (-1 : Int) (purePred (fun x => decide (5 < x)))
      = .ok (-1) := by
  have h := get_first_last_true_spec [1, 2, 3] (-1 : Int) (fun x => decide (1 < x))
  have h5 := get_first_last_true_spec [1, 2, 3] (-1 : Int) (fun x => decide (5 < x))
  have hd := h5.2.2.2 (by decide)
  exact ⟨h.1 2 [1] [3] rfl (by decide) (by decide),
    h.2.1 3 [1, 2] [] rfl (by decide) (by decide), hd.1, hd.2⟩

/-- Claim C5: `get_last_true(S, d, p)` equals `get_first_true` applied to
the reversed sequence with the same default and predicate argument —
including when the predicate argument is not callable. -/
theorem get_last_true_eq_get_first_true_reverse {T : Type} (S : List T) (d : T)
    (p : PyPredicateArg T) :
    get_last_true S d p = get_first_true S.reverse d p pyIter := by
  cases p <;> rfl

/-- Claim C10: both search functions raise a `TypeError` naming the
supplied type when the predicate argument is not callable, uniformly in
the sequence and default (so before any element is examined), and an
exception raised by invoking a callable predicate on the element reached
first (all elements traversed earlier evaluating to false) propagates
unchanged. -/
theorem get_true_predicate_error_spec {T : Type} (S : List T) (d : T) (tn : String)
    (f : T → Except PyExc Bool) (e : PyExc) :
    (get_first_true S d (.nonCallable tn) pyIter
      = .error (.typeError ("predicate must be a (x) -> bool Callable. Supplied " ++ tn ++ "."))
    ∧ get_last_true S d (.nonCallable tn)
      = .error (.typeError ("predicate must be a (x) -> bool Callable. Supplied " ++ tn ++ ".")))
    ∧ (∀ pre x post, S = pre ++ x :: post → (∀ y ∈ pre, f y = .ok false) →
        f x = .error e → get_first_true S d (.callableFn f) pyIter = .error e)
    ∧ (∀ pre x post, S = pre ++ x :: post → (∀ y ∈ post, f y = .ok false) →
        f x = .error e → get_last_true S d (.callableFn f) = .error e) := by
  refine ⟨⟨rfl, rfl⟩, fun pre x post heq hpre hx => ?_, fun pre x post heq hpost hx => ?_⟩
  · subst heq
    exact firstTrueLoop_error f d pre x post e hpre hx
  · subst heq
    show firstTrueLoop f d ((pre ++ x :: post).reverse) = .error e
    rw [List.reverse_append, List.reverse_cons, List.append_assoc, List.singleton_append]
    exact firstTrueLoop_error f d post.reverse x pre.reverse e
      (fun y hy => hpost y (List.mem_reverse.mp hy)) hx

/-- Witness for C10: a non-callable predicate raises the `TypeError`
naming its type, and an exception raised by the predicate on the first
element propagates unchanged from both functions. -/
theorem get_true_predicate_error_spec_witness :
    get_first_true [1, 2, 3] (-1 : Int) (PyPredicateArg.nonCallable "object") pyIter
      = .error (.typeError ("predicate must be a (x) -> bool Callable. Supplied "
          ++ "object" ++ "."))
    ∧ get_first_true [1, 2, 3] (-1 : Int)
        (PyPredicateArg.callableFn fun _ => .error (.typeError "missing 1 required positional argument: y"))
        pyIter
      = .error (.typeError "missing 1 required positional argument: y")
    ∧ get_last_true [1, 2, 3] (-1 : Int)
        (PyPredicateArg.callableFn fun _ => .error (.typeError "missing 1 required positional argument: y"))
      = .error (.typeError "missing 1 required positional argument: y") := by
  have h := get_true_predicate_error_spec [1, 2, 3] (-1 : Int) "object"
    (fun _ => (.error (.typeError "missing 1 required positional argument: y") : Except PyExc Bool))
    (.typeError "missing 1 required positional argument: y")
  exact ⟨h.1.1, h.2.1 [] 1 [2, 3] rfl (by simp) rfl,
    h.2.2 [1, 2] 3 [] rfl (by simp) rfl⟩

/-- Claim C6: `fallback_on_none(None, d)` returns `d`, and for every
non-`None` `v` it returns `v` unchanged — regardless of truthiness (the
third conjunct restates the unconditional second for falsy values) and
with no type-matching check between `v` and `d` (the second conjunct
places no constraint on the types, and the function raises nothing). -/
theorem fallback_on_none_spec (v d : PyVal) :
    fallback_on_none PyVal.noneVal d = d
    ∧ (v ≠ PyVal.noneVal → fallback_on_none v d = v)
    ∧ (v.truthy = false → v ≠ PyVal.noneVal → fallback_on_none v d = v) := by
  refine ⟨rfl, fun hv => ?_, fun _ hv => ?_⟩ <;>
    cases v <;> first | rfl | exact absurd rfl hv

/-- Witness for C6: falsy values `0`, `""`, `[]`, `{}`, `set()`, `()`,
`False` are all returned unchanged, also when the default has a
different runtime type. -/
theorem fallback_on_none_spec_witness :
    fallback_on_none PyVal.noneVal (PyVal.strVal "b") = PyVal.strVal "b"
    ∧ fallback_on_none (PyVal.intVal 0) (PyVal.strVal "b") = PyVal.intVal 0
    ∧ fallback_on_none (PyVal.strVal "") (PyVal.intVal 7) = PyVal.strVal ""
    ∧ fallback_on_none (PyVal.listVal []) (PyVal.intVal 7) = PyVal.listVal []
    ∧ fallback_on_none (PyVal.dictVal []) (PyVal.intVal 7) = PyVal.dictVal []
    ∧ fallback_on_none (PyVal.setVal []) (PyVal.intVal 7) = PyVal.setVal []
    ∧ fallback_on_none (PyVal.tupleVal []) (PyVal.intVal 7) = PyVal.tupleVal []
    ∧ fallback_on_none (PyVal.boolVal false) (PyVal.boolVal true) = PyVal.boolVal false := by
  exact ⟨(fallback_on_none_spec PyVal.noneVal (PyVal.strVal "b")).1,
    (fallback_on_none_spec (PyVal.intVal 0) (PyVal.strVal "b")).2.1 (by simp),
    (fallback_on_none_spec (PyVal.strVal "") (PyVal.intVal 7)).2.1 (by simp),
    (fallback_on_none_spec (PyVal.listVal []) (PyVal.intVal 7)).2.1 (by simp),
    (fallback_on_none_spec (PyVal.dictVal []) (PyVal.intVal 7)).2.1 (by simp),
    (fallback_on_none_spec (PyVal.setVal []) (PyVal.intVal 7)).2.1 (by simp),
    (fallback_on_none_spec (PyVal.tupleVal []) (PyVal.intVal 7)).2.1 (by simp),
    (fallback_on_none_spec (PyVal.boolVal false) (PyVal.boolVal true)).2.1 (by simp)⟩

/-- Claim C7: `fallback_on_none_strict(v, None)` fails its assertion for
every `v` (including non-`None` `v`), and with a non-`None` default it
returns exactly what `fallback_on_none` returns. -/
theorem fallback_on_none_strict_spec (v d : PyVal) :
    fallback_on_none_strict v PyVal.noneVal
      = .error (.assertionError "default_val must not be None.")
    ∧ (d ≠ PyVal.noneVal → fallback_on_none_strict v d = .ok (fallback_on_none v d)) := by
  refine ⟨rfl, fun hd => ?_⟩
  cases d <;> first | rfl | exact absurd rfl hd

/-- Witness for C7: a non-`None` `v` with a `None` default still fails
the assertion; with a non-`None` default the result agrees with
`fallback_on_none`. -/
theorem fallback_on_none_strict_spec_witness :
    fallback_on_none_strict (PyVal.strVal "a") PyVal.noneVal
      = .error (.assertionError "default_val must not be None.")
    ∧ fallback_on_none_strict PyVal.noneVal (PyVal.strVal "b")
      = .ok (PyVal.strVal "b")
    ∧ fallback_on_none_strict (PyVal.strVal "a") (PyVal.strVal "b")
      = .ok (PyVal.strVal "a") := by
  exact ⟨(fallback_on_none_strict_spec (PyVal.strVal "a") PyVal.noneVal).1,
    (fallback_on_none_strict_spec PyVal.noneVal (PyVal.strVal "b")).2 (by simp),
    (fallback_on_none_strict_spec (PyVal.strVal "a") (PyVal.strVal "b")).2 (by simp)⟩

/-- Claim C8: `RootDirOps.strictly_one_required` raises a `ValueError`
exactly when the strictly-one-of constraint is violated: when neither
argument is supplied, when both are, and never when exactly one is. -/
theorem strictly_one_required_spec (rd : Option PyPath) (op : Option RootDirOpObj)
    (s1 s2 : String) :
    (rd = none → op = none → strictly_one_required rd op s1 s2
      = .error (.valueError ("Either " ++ s1 ++ " or " ++ s2 ++ " is required.")))
    ∧ (∀ p o, rd = some p → op = some o → strictly_one_required rd op s1 s2
      = .error (.valueError (s1 ++ " and " ++ s2 ++ " are not allowed together.")))
    ∧ (rd ≠ none → op = none → strictly_one_required rd op s1 s2 = .ok ())
    ∧ (rd = none → op ≠ none → strictly_one_required rd op s1 s2 = .ok ()) := by
  cases rd <;> cases op <;>
    refine ⟨fun h1 h2 => ?_, fun p o h1 h2 => ?_, fun h1 h2 => ?_, fun h1 h2 => ?_⟩ <;>
    simp_all [strictly_one_required, optTruthy]

/-- Witness for C8: both-`None` and both-supplied raise their respective
`ValueError`; exactly one supplied raises nothing. -/
theorem strictly_one_required_spec_witness :
    strictly_one_required none none "root_dir" "root_dir_op"
      = .error (.valueError ("Either " ++ "root_dir" ++ " or " ++ "root_dir_op"
          ++ " is required."))
    ∧ strictly_one_required (some ⟨"/tmp"⟩) (some ⟨⟨"/tmp"⟩⟩) "root_dir" "root_dir_op"
      = .error (.valueError ("root_dir" ++ " and " ++ "root_dir_op"
          ++ " are not allowed together."))
    ∧ strictly_one_required (some ⟨"/tmp"⟩) none "root_dir" "root_dir_op" = .ok ()
    ∧ strictly_one_required none (some ⟨⟨"/tmp"⟩⟩) "root_dir" "root_dir_op" = .ok () := by
  exact ⟨(strictly_one_required_spec none none "root_dir" "root_dir_op").1 rfl rfl,
    (strictly_one_required_spec (some ⟨"/tmp"⟩) (some ⟨⟨"/tmp"⟩⟩) "root_dir"
      "root_dir_op").2.1 ⟨"/tmp"⟩ ⟨⟨"/tmp"⟩⟩ rfl rfl,
    (strictly_one_required_spec (some ⟨"/tmp"⟩) none "root_dir" "root_dir_op").2.2.1
      (by simp) rfl,
    (strictly_one_required_spec none (some ⟨⟨"/tmp"⟩⟩) "root_dir" "root_dir_op").2.2.2
      rfl (by simp)⟩

/-- Claim C9: the sentinel classifiers decide membership purely by
identity with the singleton: `is_missing` is true exactly on `MISSING`
and false on everything else (so on `None`, `0`, `False`, `""` and empty
containers), and `is_ellipses` is true exactly on the ellipsis object;
both are pure functions of their argument. -/
theorem sentinel_identity_classification (x : PyVal) :
    is_missing MISSING = true
    ∧ (x ≠ MISSING → is_missing x = false)
    ∧ (is_ellipses x = true ↔ x = PyVal.ellipsisVal) := by
  refine ⟨rfl, fun hx => ?_, is_ellipses_eq_true_iff x⟩
  cases hxm : is_missing x
  · rfl
  · exact absurd ((is_missing_eq_true_iff x).mp hxm) hx

/-- Witness for C9: `is_missing` is false on `None`, `0`, `False`, `""`
and the empty containers, and `is_ellipses` is true on the ellipsis
object and false on `MISSING`. -/
theorem sentinel_identity_classification_witness :
    is_missing PyVal.noneVal = false
    ∧ is_missing (PyVal.intVal 0) = false
    ∧ is_missing (PyVal.boolVal false) = false
    ∧ is_missing (PyVal.strVal "") = false
    ∧ is_missing (PyVal.listVal []) = false
    ∧ is_missing (PyVal.dictVal []) = false
    ∧ is_missing (PyVal.setVal []) = false
    ∧ is_missing (PyVal.tupleVal []) = false
    ∧ is_ellipses PyVal.ellipsisVal = true
    ∧ is_ellipses MISSING = false := by
  refine ⟨(sentinel_identity_classification PyVal.noneVal).2.1 (by simp [MISSING]),
    (sentinel_identity_classification (PyVal.intVal 0)).2.1 (by simp [MISSING]),
    (sentinel_identity_classification (PyVal.boolVal false)).2.1 (by simp [MISSING]),
    (sentinel_identity_classification (PyVal.strVal "")).2.1 (by simp [MISSING]),
    (sentinel_identity_classification (PyVal.listVal [])).2.1 (by simp [MISSING]),
    (sentinel_identity_classification (PyVal.dictVal [])).2.1 (by simp [MISSING]),
    (sentinel_identity_classification (PyVal.setVal [])).2.1 (by simp [MISSING]),
    (sentinel_identity_classification (PyVal.tupleVal [])).2.1 (by simp [MISSING]),
    (sentinel_identity_classification PyVal.ellipsisVal).2.2.mpr rfl, ?_⟩
  cases he : is_ellipses MISSING
  · rfl
  · exact absurd ((sentinel_identity_classification MISSING).2.2.mp he) (by simp [MISSING])

end VtCommons
